import Mathlib

/-!
Verification development for the `cargo-run-wasm` crate.

The embedding below translates the crate's three source files
(`src/lib.rs`, `src/target_dir.rs`, `src/metadata.rs`) into Lean.

Modelling conventions:
* Filesystem paths are lists of components with the innermost component
  first, so `["b", "a"]` stands for `/a/b` and `[]` stands for the
  filesystem root.  `Path.join p c` models `p.join(c)` (it conses the
  component) and `List.tail` models `PathBuf::pop` (which fails exactly
  at the root, i.e. at `[]`).
* The filesystem is a snapshot: a list of directory paths and a list of
  file paths.  Rust's `Path::exists()` is true when the path names an
  entry of either kind.
* External effects (the `cargo metadata` subprocess, the `cargo build`
  subprocess, `wasm-bindgen`, file writes, the dev server) are modelled
  by explicit inputs in a `World` structure and an output `Trace`
  recording which external steps ran and with what arguments.
* `panic!` / `.unwrap()` aborts are modelled as distinct outcomes where
  a claim depends on them; otherwise they are noted in comments.
-/

set_option maxRecDepth 8192

namespace CargoRunWasm

/-- A filesystem path: list of components, innermost first; `[]` is the root. -/
abbrev Path := List String

/-- `PathBuf::join` with a single component. -/
def Path.join (p : Path) (c : String) : Path := c :: p

/-- A snapshot of the filesystem: which paths are directories, which are files. -/
structure FS where
  dirs : List Path
  files : List Path
deriving DecidableEq

/-- Rust `Path::exists()`: true for an entry of any kind. -/
def FS.pathExists (fs : FS) (p : Path) : Bool :=
  fs.dirs.contains p || fs.files.contains p

/-- The directories visited by the ancestor walk in `CargoDirectories::new`,
in visiting order: the directory itself, then each parent up to the root. -/
def ancestors : Path → List Path
  | [] => [[]]
  | c :: parent => (c :: parent) :: ancestors parent

/-- `struct CargoDirectories` from `src/target_dir.rs`. -/
structure CargoDirectories where
  workspace_root : Path
  target_directory : Path
deriving DecidableEq

/-- The parsed JSON object produced by `cargo metadata --no-deps
--format-version=1`: the two string fields the code extracts.  Malformed
output makes `from_cargo` panic via `expect`; only well-formed output is
modelled. -/
structure MetadataOutput where
  workspace_root : Path
  target_directory : Path
deriving DecidableEq

/-- `CargoDirectories::from_cargo`: runs `cargo metadata` and extracts the
`target_directory` and `workspace_root` fields of its parsed output. -/
def CargoDirectories.from_cargo (meta : MetadataOutput) : CargoDirectories :=
  { workspace_root := meta.workspace_root, target_directory := meta.target_directory }

/-- The per-directory test of the ancestor walk in `CargoDirectories::new`:
`target.exists() && cargo_toml.exists()` (any entry kind counts). -/
def heuristicCond (fs : FS) (q : Path) : Bool :=
  fs.pathExists (Path.join q "target") && fs.pathExists (Path.join q "Cargo.toml")

/-- The `loop` in `CargoDirectories::new`: starting at the manifest
directory, return the first directory (walking upward) whose `target` and
`Cargo.toml` children both exist; `none` when the walk exhausts all
ancestors (the root `[]` included, since `pop` fails only after the root
has been checked). -/
def CargoDirectories.heuristic (fs : FS) : Path → Option CargoDirectories
  | [] =>
    if heuristicCond fs [] then
      some { workspace_root := [], target_directory := Path.join [] "target" }
    else
      none
  | c :: parent =>
    if heuristicCond fs (c :: parent) then
      some { workspace_root := c :: parent,
             target_directory := Path.join (c :: parent) "target" }
    else
      CargoDirectories.heuristic fs parent

/-- `CargoDirectories::new`.  The manifest directory (read from the
`CARGO_MANIFEST_DIR` environment variable in the source) and the outcome of
the `cargo metadata` query are threaded as explicit parameters.  The
returned `Bool` records whether the metadata query subprocess was invoked:
the source runs `from_cargo` only after the ancestor walk has failed, and
never otherwise. -/
def CargoDirectories.new (fs : FS) (meta : MetadataOutput) (manifest_dir : Path) :
    CargoDirectories × Bool :=
  match CargoDirectories.heuristic fs manifest_dir with
  | some d => (d, false)
  | none => (CargoDirectories.from_cargo meta, true)

/-! ### String helpers mirroring the Rust standard library -/

/-- Helper for `strContains`: does `needle` occur as a contiguous sublist? -/
def hasSubList (needle : List Char) : List Char → Bool
  | [] => needle.isEmpty
  | c :: rest => needle.isPrefixOf (c :: rest) || hasSubList needle rest

/-- Rust `str::contains` with a literal string pattern. -/
def strContains (hay needle : String) : Bool :=
  hasSubList needle.data hay.data

/-- Helper for `strReplace`.  The `Nat` argument counts pattern characters
still to be skipped after a match was found and the replacement emitted. -/
def replaceAux (needle rep : List Char) : List Char → Nat → List Char
  | [], _ => []
  | _ :: rest, k + 1 => replaceAux needle rep rest k
  | c :: rest, 0 =>
    if !needle.isEmpty && needle.isPrefixOf (c :: rest) then
      rep ++ replaceAux needle rep rest (needle.length - 1)
    else
      c :: replaceAux needle rep rest 0

/-- Rust `str::replace` with literal string pattern and replacement:
every non-overlapping occurrence is replaced, scanning left to right.
(For the empty pattern Rust inserts the replacement at every position;
this model leaves the string unchanged instead.  The patterns used by the
crate are never empty.) -/
def strReplace (s pat rep : String) : String :=
  ⟨replaceAux pat.data rep.data s.data 0⟩

/-- Rust `List`-level `str::starts_with` used by the pico_args model. -/
def strIsPrefixOf (p s : String) : Bool :=
  p.data.isPrefixOf s.data

/-! ### The build orchestrator: `RunWasm` from `src/lib.rs` -/

/-- `struct RunWasm` from `src/lib.rs`. -/
structure RunWasm where
  css : String
  profile : Option String
  bin : Option String
  «example» : Option String
  package : Option String
  cargo_build_args : List String
  build_only : Bool
  host : Option String
  port : Option String
deriving DecidableEq

/-- `RunWasm::new`. -/
def RunWasm.new : RunWasm :=
  { css := "", profile := none, bin := none, «example» := none, package := none,
    cargo_build_args := [], build_only := false, host := none, port := none }

/-- `RunWasm::with_css`.  The source `panic!`s when the css contains
`</style>`; the panic is modelled as `none`. -/
def RunWasm.with_css (r : RunWasm) (css : String) : Option RunWasm :=
  if strContains css "</style>" then none else some { r with css := css }

/-- `RunWasm::with_package`. -/
def RunWasm.with_package (r : RunWasm) (package : Option String) : RunWasm :=
  { r with package := package }

/-- `RunWasm::with_example`. -/
def RunWasm.with_example (r : RunWasm) (ex : Option String) : RunWasm :=
  { r with «example» := ex }

/-- `RunWasm::with_bin`. -/
def RunWasm.with_bin (r : RunWasm) (bin : Option String) : RunWasm :=
  { r with bin := bin }

/-- `RunWasm::with_profile`. -/
def RunWasm.with_profile (r : RunWasm) (profile : Option String) : RunWasm :=
  { r with profile := profile }

/-- `RunWasm::with_cargo_build_args`. -/
def RunWasm.with_cargo_build_args (r : RunWasm) (cargo_build_args : List String) : RunWasm :=
  { r with cargo_build_args := cargo_build_args }

/-- `RunWasm::with_build_only`. -/
def RunWasm.with_build_only (r : RunWasm) (build_only : Bool) : RunWasm :=
  { r with build_only := build_only }

/-- `RunWasm::with_host`. -/
def RunWasm.with_host (r : RunWasm) (host : Option String) : RunWasm :=
  { r with host := host }

/-- `RunWasm::with_port`. -/
def RunWasm.with_port (r : RunWasm) (port : Option String) : RunWasm :=
  { r with port := port }

/-- The external environment of one `RunWasm::run` invocation: the value of
`CARGO_MANIFEST_DIR`, the filesystem snapshot used by the directory
resolver, the parsed outcome of the `cargo metadata` query, the exit status
of the `cargo build` subprocess, and the filesystem snapshot after the
build (used for the artifact existence check). -/
structure World where
  cargo_manifest_dir : Path
  fs : FS
  metadata : MetadataOutput
  cargo_build_success : Bool
  fs_after_build : FS
deriving DecidableEq

/-- Record of the externally visible steps one `run()` invocation performed:
whether the `cargo metadata` query ran, whether `cargo build` ran, which
artifact path was tested for existence, which artifact path was handed to
wasm-bindgen, where the generated page was written and with what contents,
and whether the dev server was started. -/
structure Trace where
  metadata_invoked : Bool := false
  cargo_invoked : Bool := false
  artifact_checked : Option Path := none
  bindgen_input : Option Path := none
  page_path : Option Path := none
  page_contents : Option String := none
  server_invoked : Bool := false
deriving DecidableEq

/-- Modelled from the spec: the file `src/index.template.html` referenced by
`include_str!` is not among the provided sources.  Per the spec it is "a
text template containing two substitution markers — one for the target's
display name, one for optional stylesheet text", substituted by literal
text replacement.  (`\x7b` and `\x7d` are the brace characters.) -/
def index_template : String :=
  "<!DOCTYPE html><html><head><title>\x7b\x7bname\x7d\x7d</title><style>\x7b\x7bcss\x7d\x7d</style></head><body>\x7b\x7bname\x7d\x7d</body></html>"

/-- The marker replaced by the target's name: `{{name}}` (written with
escaped braces). -/
def nameMarker : String := "\x7b\x7bname\x7d\x7d"

/-- The marker replaced by the caller-supplied css: `{{css}}`. -/
def cssMarker : String := "\x7b\x7bcss\x7d\x7d"

/-- Error returned by `run()` when no target selector is set. -/
def needTargetMsg : String :=
  "Need to use at least one of `--package NAME`, `--example NAME` `--bin NAME`.\nRun cargo run-wasm --help for more info."

/-- Error returned by `run()` when `cargo build` exits with failure. -/
def cargoFailedMsg : String := "Failed due to cargo error"

/-- Error returned by `run()` when the built artifact does not exist.  The
source returns this string literally: it is not a `format!` call, so the
`\x7bwasm_source:?\x7d` placeholder appears verbatim in the message. -/
def artifactMissingMsg : String :=
  "There is no binary at \x7bwasm_source:?\x7d, maybe you used `--package NAME` on a package that has no binary?"

/-- The selected target name in `run()`:
`self.example.as_ref().or(self.bin.as_ref()).or(self.package.as_ref())`. -/
def RunWasm.binaryName (r : RunWasm) : Option String :=
  (r.«example».or r.bin).or r.package

/-- The profile directory name computed in `run()`:
`match self.profile.as_deref() { Some("dev") => "debug", Some(profile) => profile, None => "debug" }`. -/
def profile_dir_name : Option String → String
  | some profile => if profile = "dev" then "debug" else profile
  | none => "debug"

/-- The compiled-artifact path computed in `run()` from the wasm output
directory (`target_target`), the requested profile, whether the target is
an example, and the target name:
`target_target.join("wasm32-unknown-unknown").join(profile_dir_name)`,
then `.join("examples")` when an example was selected, then
`.join(format!("\x7b\x7d.wasm", binary_name))`. -/
def wasmSourcePath (target_target : Path) (profile : Option String)
    (isExample : Bool) (binary_name : String) : Path :=
  let target_profile :=
    Path.join (Path.join target_target "wasm32-unknown-unknown") (profile_dir_name profile)
  Path.join (if isExample then Path.join target_profile "examples" else target_profile)
    (binary_name ++ ".wasm")

/-- `RunWasm::run` from `src/lib.rs`.  Returns the `Result` together with
the `Trace` of external steps.  Unmodelled aborts: `Command::status`,
`create_dir_all`, the wasm-bindgen calls and `fs::write` are `.unwrap()`ed
in the source (they panic rather than return), so they are treated as
succeeding; the dev server blocks forever and is recorded as
`server_invoked`, with the port-string parse panic not modelled. -/
def RunWasm.run (r : RunWasm) (w : World) : Except String Unit × Trace :=
  match r.binaryName with
  | none => (.error needTargetMsg, {})
  | some binary_name =>
    let resolved := CargoDirectories.new w.fs w.metadata w.cargo_manifest_dir
    let target_target := Path.join resolved.1.target_directory "wasm-examples-target"
    -- `cargo build --target wasm32-unknown-unknown --target-dir <target_target> ...`
    if w.cargo_build_success = false then
      (.error cargoFailedMsg, { metadata_invoked := resolved.2, cargo_invoked := true })
    else
      let wasm_source := wasmSourcePath target_target r.profile r.«example».isSome binary_name
      if w.fs_after_build.pathExists wasm_source = false then
        (.error artifactMissingMsg,
          { metadata_invoked := resolved.2, cargo_invoked := true,
            artifact_checked := some wasm_source })
      else
        let example_dest :=
          Path.join (Path.join resolved.1.target_directory "wasm-examples") binary_name
        let index_processed :=
          strReplace (strReplace index_template nameMarker binary_name) cssMarker r.css
        (.ok (),
          { metadata_invoked := resolved.2, cargo_invoked := true,
            artifact_checked := some wasm_source,
            bindgen_input := some wasm_source,
            page_path := some (Path.join example_dest "index.html"),
            page_contents := some index_processed,
            server_invoked := !r.build_only })

/-! ### Argument parsing: `Args::from_env` over a model of pico_args

pico_args `Arguments` is the process argument list (program name already
stripped).  `contains` removes the first exact occurrence of its key.
`opt_value_from_str` first looks for the key as an exact argument and takes
the *next* argument as its value (whatever it is — the next argument is
used even when it starts with a dash); a key in final position yields
`Err(OptionWithoutAValue)`.  Otherwise it looks for a single `key=value`
argument; an empty value also yields `Err(OptionWithoutAValue)`.
`Args::from_env` calls `.unwrap()` on every lookup, so those errors abort
the process (modelled as `FromEnvResult.panicked`).  All values are read at
type `String`, whose `FromStr` never fails. -/

/-- Result of one pico_args value lookup. -/
inductive OptValueResult where
  | found (value : String) (rest : List String)
  | missingValue
  | absent
deriving DecidableEq

/-- Remove the first occurrence of `key`; `none` when absent. -/
def removeFirst (key : String) : List String → Option (List String)
  | [] => none
  | a :: rest =>
    if a = key then some rest
    else Option.map (fun l => a :: l) (removeFirst key rest)

/-- pico_args `Arguments::contains`. -/
def picoContains (key : String) (args : List String) : Bool × List String :=
  match removeFirst key args with
  | some rest => (true, rest)
  | none => (false, args)

/-- pico_args: locate `key value` as two consecutive arguments (first
occurrence of the exact key wins; a key in final position has no value). -/
def findKeyValue (key : String) : List String → OptValueResult
  | [] => .absent
  | a :: rest =>
    if a = key then
      match rest with
      | [] => .missingValue
      | v :: rest2 => .found v rest2
    else
      match findKeyValue key rest with
      | .found v r => .found v (a :: r)
      | .missingValue => .missingValue
      | .absent => .absent

/-- pico_args: locate a single `key=value` argument (empty value is an
error). -/
def findKeyEq (key : String) : List String → OptValueResult
  | [] => .absent
  | a :: rest =>
    if strIsPrefixOf (key ++ "=") a then
      let v : String := ⟨a.data.drop (key.data.length + 1)⟩
      if v = "" then .missingValue else .found v rest
    else
      match findKeyEq key rest with
      | .found v r => .found v (a :: r)
      | .missingValue => .missingValue
      | .absent => .absent

/-- pico_args `opt_value_from_str::<_, String>`; `none` models
`Err(OptionWithoutAValue)` (which `from_env` unwraps into a panic). -/
def picoOptValue (key : String) (args : List String) :
    Option (Option String × List String) :=
  match findKeyValue key args with
  | .found v rest => some (some v, rest)
  | .missingValue => none
  | .absent =>
    match findKeyEq key args with
    | .found v rest => some (some v, rest)
    | .missingValue => none
    | .absent => some (none, args)

/-- `struct Args` from `src/lib.rs`. -/
structure Args where
  help : Bool
  profile : Option String
  build_only : Bool
  host : Option String
  port : Option String
  build_args : List String
  package : Option String
  «example» : Option String
  bin : Option String
deriving DecidableEq

/-- Outcome of `Args::from_env`: the parsed `Args`, the `Err` return (a
configuration error whose message is printed together with the help text),
or a process abort from an `.unwrap()` on a failed pico_args lookup. -/
inductive FromEnvResult where
  | ok (a : Args)
  | err (msg : String)
  | panicked
deriving DecidableEq

/-- The `--profile` / `--release` conflict error from `Args::from_env`. -/
def conflictMsg : String :=
  "conflicting usage of --profile and --release.\nThe `--release` flag is the same as `--profile=release`.\nRemove one flag or the other to continue."

/-- The banned-option error from `Args::from_env`. -/
def bannedMsg (option : String) : String :=
  "cargo-run-wasm does not support the " ++ option ++ " option"

/-- `Args::from_env`, operating on the process argument list (without the
program name).  The lookups happen in source order; note that
`contains("--release") || contains("-r")` and
`contains("--help") || contains("-h")` short-circuit, and that the `-p`
lookup runs only when `--package` produced no value. -/
def Args.from_env (argv : List String) : FromEnvResult :=
  let s0 := picoContains "--release" argv
  let s1 := if s0.1 then (true, s0.2) else picoContains "-r" s0.2
  let release_arg := s1.1
  match picoOptValue "--profile" s1.2 with
  | none => .panicked
  | some (profile_arg, a2) =>
    if release_arg && profile_arg.isSome then .err conflictMsg else
    let profile := match profile_arg with
      | some p => some p
      | none => if release_arg then some "release" else none
    let s2 := picoContains "--build-only" a2
    let build_only := s2.1
    let s3 := picoContains "--help" s2.2
    let s4 := if s3.1 then (true, s3.2) else picoContains "-h" s3.2
    let help := s4.1
    match picoOptValue "--host" s4.2 with
    | none => .panicked
    | some (host, a5) =>
    match picoOptValue "--port" a5 with
    | none => .panicked
    | some (port, a6) =>
    match picoOptValue "--package" a6 with
    | none => .panicked
    | some (package0, a7) =>
    let pstep : Option (Option String × List String) :=
      match package0 with
      | some p => some (some p, a7)
      | none => picoOptValue "-p" a7
    match pstep with
    | none => .panicked
    | some (package, a8) =>
    match picoOptValue "--example" a8 with
    | none => .panicked
    | some (ex, a9) =>
    match picoOptValue "--bin" a9 with
    | none => .panicked
    | some (bin, a10) =>
    match picoOptValue "--target" a10 with
    | none => .panicked
    | some (t1, a11) =>
    if t1.isSome then .err (bannedMsg "--target") else
    match picoOptValue "--target-dir" a11 with
    | none => .panicked
    | some (t2, a12) =>
    if t2.isSome then .err (bannedMsg "--target-dir") else
    .ok { help := help, profile := profile, build_only := build_only,
          host := host, port := port, build_args := a12,
          package := package, «example» := ex, bin := bin }

/-- `run_wasm_cli_with_css` from `src/lib.rs`: parse the process arguments;
on a parse error or `--help`, print and return without running anything;
otherwise build the `RunWasm` (where `with_css` may panic) and call
`run()`.  Returns the trace of external steps performed. -/
def run_wasm_cli_with_css (css : String) (argv : List String) (w : World) : Trace :=
  match Args.from_env argv with
  | .err _ => {}
  | .panicked => {}
  | .ok args =>
    if args.help then {}
    else
      match RunWasm.new.with_css css with
      | none => {}
      | some r =>
        (((((((((r.with_package args.package).with_example args.«example»).with_bin
            args.bin).with_profile args.profile).with_cargo_build_args
            args.build_args).with_build_only args.build_only).with_host
            args.host).with_port args.port).run w).2

/-! ### Claim-side definitions (stated from the claims' words, for
comparison against the source embedding) -/

/-- Claim C1/C2's ancestor condition, exactly as worded: the directory has
a child *directory* named `target` and a *file* named `Cargo.toml`. -/
def claimAncestorCond (fs : FS) (q : Path) : Bool :=
  fs.dirs.contains (Path.join q "target") && fs.files.contains (Path.join q "Cargo.toml")

/-- Claim C1's expected answer: the first (nearest) ancestor, walking
upward from the manifest directory, satisfying `claimAncestorCond`. -/
def claimNearestAncestor (fs : FS) (p : Path) : Option Path :=
  (ancestors p).find? (claimAncestorCond fs)

/-- Claim C4's artifact path, exactly as worded: wasm output directory,
then the triple, then the profile directory name — `debug` when no profile
was requested, *otherwise the requested profile's name* — then an
`examples` segment for example targets, then `name.wasm`. -/
def claimArtifactPath (wasm_out : Path) (profile : Option String)
    (isExample : Bool) (name : String) : Path :=
  let dir := Path.join (Path.join wasm_out "wasm32-unknown-unknown")
    (match profile with
     | none => "debug"
     | some p => p)
  Path.join (if isExample then Path.join dir "examples" else dir) (name ++ ".wasm")

/-- Claim C4 as amended: like `claimArtifactPath`, except that the
requested profile `dev` also uses the directory name `debug` (cargo places
`--profile dev` output in `target/debug`). -/
def amendedArtifactPath (wasm_out : Path) (profile : Option String)
    (isExample : Bool) (name : String) : Path :=
  let dir := Path.join (Path.join wasm_out "wasm32-unknown-unknown")
    (match profile with
     | none => "debug"
     | some p => if p = "dev" then "debug" else p)
  Path.join (if isExample then Path.join dir "examples" else dir) (name ++ ".wasm")

/-- The option keys `Args::from_env` handles.  An argument equal to one of
these, or of the form `key=value` for one of these, can be recognized or
consumed by one of the lookups that run before the banned-option check. -/
def handledKeys : List String :=
  ["--release", "-r", "--profile", "--build-only", "--help", "-h", "--host",
   "--port", "--package", "-p", "--example", "--bin", "--target", "--target-dir"]

/-- An argument that some `Args::from_env` lookup could recognize or
consume: a handled key, or a `key=value` form of one. -/
def isSpecialArg (a : String) : Bool :=
  handledKeys.contains a || handledKeys.any (fun k => strIsPrefixOf (k ++ "=") a)

/-! ### Concrete fixtures -/

/-- An empty filesystem. -/
def fsEmpty : FS := { dirs := [], files := [] }

/-- Fixture for C1: manifest directory `/a/b`.  `/a/b` contains a *file*
named `target` and a file `Cargo.toml`; `/a` contains a *directory* named
`target` and a file `Cargo.toml`. -/
def fsC1 : FS :=
  { dirs := [["a"], ["b", "a"], ["target", "a"]],
    files := [["target", "b", "a"], ["Cargo.toml", "b", "a"], ["Cargo.toml", "a"]] }

/-- Metadata outcome fixture for C1 (distinct from every heuristic answer). -/
def metaC1 : MetadataOutput :=
  { workspace_root := ["meta-root"], target_directory := ["meta-target"] }

/-- Fixture for C2: manifest directory `/a` contains a *file* named
`target` and a file `Cargo.toml`; no directory named `target` exists. -/
def fsC2 : FS :=
  { dirs := [["a"]], files := [["target", "a"], ["Cargo.toml", "a"]] }

/-- Metadata outcome fixture for C2. -/
def metaC2 : MetadataOutput :=
  { workspace_root := ["meta-root"], target_directory := ["meta-target"] }

/-- Fixture for C3: the manifest directory (the root) has both a `target`
directory and a `Cargo.toml` file, so the heuristic succeeds. -/
def fsC3 : FS :=
  { dirs := [[], ["target"]], files := [["Cargo.toml"]] }

/-- Metadata outcome fixture for C3. -/
def metaC3 : MetadataOutput :=
  { workspace_root := ["meta-root"], target_directory := ["meta-target"] }

/-- BuildRequest fixture for C5: a package selector only. -/
def rC5 : RunWasm := { RunWasm.new with package := some "demo" }

/-- World fixture for C5: the build succeeds but produces no artifact
anywhere (the filesystem after the build is empty). -/
def wC5 : World :=
  { cargo_manifest_dir := [], fs := fsEmpty,
    metadata := { workspace_root := [], target_directory := ["meta-target"] },
    cargo_build_success := true, fs_after_build := fsEmpty }

/-- World fixture for C6/C7 pipeline checks. -/
def wCli : World :=
  { cargo_manifest_dir := [], fs := fsEmpty,
    metadata := { workspace_root := [], target_directory := ["meta-target"] },
    cargo_build_success := true, fs_after_build := fsEmpty }

/-- The `Args` value that `Args::from_env` produces on
`["--host", "--target", "x"]`: the `--target` occurrence is consumed as the
*value* of `--host`, so parsing succeeds. -/
def argsHostTarget : Args :=
  { help := false, profile := none, build_only := false, host := some "--target",
    port := none, build_args := ["x"], package := none, «example» := none, bin := none }

/-- BuildRequest fixture for C10 precedence: all three selectors set. -/
def rC10 : RunWasm :=
  { RunWasm.new with «example» := some "ex", bin := some "bi", package := some "pk" }

/-- C10 fixture: example selector cleared, bin and package still set. -/
def rC10b : RunWasm := { rC10 with «example» := none }

/-- C10 fixture: only the package selector set (of the three). -/
def rC10c : RunWasm := { rC10 with «example» := none, bin := none }

/-- World fixture for C10: the artifact for the example target exists. -/
def wC10 : World :=
  { cargo_manifest_dir := [], fs := fsC3,
    metadata := { workspace_root := [], target_directory := ["meta-target"] },
    cargo_build_success := true,
    fs_after_build :=
      { dirs := [],
        files := [["ex.wasm", "examples", "debug", "wasm32-unknown-unknown",
                   "wasm-examples-target", "target"]] } }

/-! ### Helper lemmas -/

/-- The ancestor walk is the first hit of `heuristicCond` along `ancestors`. -/
theorem heuristic_eq_find (fs : FS) (p : Path) :
    CargoDirectories.heuristic fs p =
      Option.map
        (fun q => { workspace_root := q, target_directory := Path.join q "target" })
        ((ancestors p).find? (heuristicCond fs)) := by
  induction p with
  | nil =>
    cases h : heuristicCond fs [] <;>
      simp [CargoDirectories.heuristic, ancestors, List.find?, h]
  | cons c parent ih =>
    cases h : heuristicCond fs (c :: parent) <;>
      simp [CargoDirectories.heuristic, ancestors, List.find?, h, ih]

/-- A parse error in the CLI entry point prevents every external step. -/
theorem run_wasm_cli_of_err (css : String) (argv : List String) (w : World)
    (msg : String) (h : Args.from_env argv = .err msg) :
    run_wasm_cli_with_css css argv w = ({} : Trace) := by
  unfold run_wasm_cli_with_css
  rw [h]

/-- The source path function agrees with the amended C4 description. -/
theorem wasmSourcePath_eq_amended (tt : Path) (profile : Option String)
    (isEx : Bool) (name : String) :
    wasmSourcePath tt profile isEx name = amendedArtifactPath tt profile isEx name := by
  cases profile <;> rfl

/-! ### Claim theorems -/

/-- C1 (corrected): the claim reads the walk's test as "a child *directory*
named `target` and a *file* named `Cargo.toml`", but the source tests
`Path::exists()`, which is satisfied by entries of any kind.  Concretely:
under `/a/b`, the nearest ancestor with a `target` directory next to a
`Cargo.toml` file is `/a`, yet the resolver stops at `/a/b`, whose `target`
is a plain file. -/
theorem c1_counterexample :
    claimNearestAncestor fsC1 ["b", "a"] = some ["a"] ∧
    (CargoDirectories.new fsC1 metaC1 ["b", "a"]).1.workspace_root = ["b", "a"] ∧
    (["b", "a"] : Path) ≠ (["a"] : Path) := by
  decide

/-- C1 (amended): for every manifest directory with some ancestor
(including itself) in which child entries named `target` and `Cargo.toml`
both exist — regardless of entry kind — the resolver returns the first
(nearest) such ancestor as `workspace_root`, with its `target` child as
`target_directory`, does not invoke the metadata query, and its result is
independent of the query's outcome. -/
theorem c1_resolver_nearest (fs : FS) (meta : MetadataOutput) (p q : Path)
    (h : (ancestors p).find? (heuristicCond fs) = some q) :
    CargoDirectories.new fs meta p =
      ({ workspace_root := q, target_directory := Path.join q "target" }, false) := by
  unfold CargoDirectories.new
  rw [heuristic_eq_find, h]
  rfl

/-- C1 witness: at the C1 fixture the nearest ancestor where both entries
exist is `/a/b` itself, and the resolver returns it without the query. -/
theorem c1_witness :
    CargoDirectories.new fsC1 metaC1 ["b", "a"] =
      ({ workspace_root := ["b", "a"], target_directory := ["target", "b", "a"] }, false) :=
  c1_resolver_nearest fsC1 metaC1 ["b", "a"] ["b", "a"] (by decide)

/-- C2 (corrected): the claim's premise "no ancestor contains both a
`target` child *directory* and a `Cargo.toml` *file*" does not force the
metadata fallback: an ancestor holding a `target` *file* next to a
`Cargo.toml` satisfies the source's existence test, so the heuristic wins
and the result differs from the metadata query's fields. -/
theorem c2_counterexample :
    (∀ q ∈ ancestors (["a"] : Path), claimAncestorCond fsC2 q = false) ∧
    (CargoDirectories.new fsC2 metaC2 ["a"]).1 ≠ CargoDirectories.from_cargo metaC2 := by
  decide

/-- C2 (amended): for every manifest directory in which *no* ancestor
(including itself) has child entries named `target` and `Cargo.toml` both
existing (of any entry kind), the resolver's result equals exactly the
`workspace_root`/`target_directory` fields of the metadata query's parsed
output, and the query is invoked. -/
theorem c2_resolver_fallback (fs : FS) (meta : MetadataOutput) (p : Path)
    (h : ∀ q ∈ ancestors p, heuristicCond fs q = false) :
    CargoDirectories.new fs meta p = (CargoDirectories.from_cargo meta, true) := by
  unfold CargoDirectories.new
  rw [heuristic_eq_find]
  have hnone : (ancestors p).find? (heuristicCond fs) = none := by
    rw [List.find?_eq_none]
    intro x hx
    simp [h x hx]
  rw [hnone]
  rfl

/-- C2 witness: on an empty filesystem the walk fails everywhere and the
resolver returns the metadata query's fields. -/
theorem c2_witness :
    CargoDirectories.new fsEmpty metaC2 ["a"] = (CargoDirectories.from_cargo metaC2, true) :=
  c2_resolver_fallback fsEmpty metaC2 ["a"] (by decide)

/-- C3 (corrected): the claim says the metadata query is launched during
*every* resolver invocation, before or concurrently with the ancestor
walk.  In the source there is no background operation at all: when the
walk succeeds the query is never invoked, as this concrete invocation
shows (the returned flag records whether `from_cargo` ran). -/
theorem c3_counterexample :
    (CargoDirectories.heuristic fsC3 []).isSome = true ∧
    (CargoDirectories.new fsC3 metaC3 []).2 = false := by
  decide

/-- C3 (amended): the resolver is sequential: it runs the ancestor-walk
heuristic to completion first, invokes the (blocking) metadata query
exactly when the walk fails, and returns the walk's result otherwise. -/
theorem c3_sequential_fallback (fs : FS) (meta : MetadataOutput) (p : Path) :
    ((CargoDirectories.new fs meta p).2 = true ↔ CargoDirectories.heuristic fs p = none) ∧
    (CargoDirectories.new fs meta p).1 =
      (CargoDirectories.heuristic fs p).getD (CargoDirectories.from_cargo meta) := by
  unfold CargoDirectories.new
  cases h : CargoDirectories.heuristic fs p <;> simp

/-- C4 (corrected): the claim says the profile directory is "`debug` when
no profile was requested, otherwise the requested profile's name"; but for
the requested profile `dev` the source (matching cargo's layout) uses
`debug`, not `dev`. -/
theorem c4_counterexample :
    claimArtifactPath [] (some "dev") false "demo" =
      ["demo.wasm", "dev", "wasm32-unknown-unknown"] ∧
    wasmSourcePath [] (some "dev") false "demo" =
      ["demo.wasm", "debug", "wasm32-unknown-unknown"] ∧
    wasmSourcePath [] (some "dev") false "demo" ≠
      claimArtifactPath [] (some "dev") false "demo" := by
  decide

/-- C4 (amended): the compiled-artifact path is the wasm output directory
joined with `wasm32-unknown-unknown`, then the profile directory name
(`debug` when no profile was requested *or the requested profile is
`dev`*, otherwise the requested profile's name), then an `examples`
segment exactly when the selected target is an example, then the target's
name with `.wasm` appended; and `run()` checks the artifact at exactly
this path. -/
theorem c4_artifact_path :
    (∀ (tt : Path) (profile : Option String) (isEx : Bool) (name : String),
        wasmSourcePath tt profile isEx name = amendedArtifactPath tt profile isEx name) ∧
    (∀ (r : RunWasm) (w : World) (name : String),
        r.binaryName = some name → w.cargo_build_success = true →
        (r.run w).2.artifact_checked =
          some (amendedArtifactPath
            (Path.join
              (CargoDirectories.new w.fs w.metadata w.cargo_manifest_dir).1.target_directory
              "wasm-examples-target")
            r.profile r.«example».isSome name)) := by
  refine ⟨wasmSourcePath_eq_amended, ?_⟩
  intro r w name hname hcargo
  unfold RunWasm.run
  rw [hname]
  simp only [hcargo, ← wasmSourcePath_eq_amended]
  rw [if_neg (show ¬(true = false) by decide)]
  split <;> rfl

/-- C4 witness: the amended artifact-path description instantiated at the
C5 fixture (package `demo`, no profile, not an example). -/
theorem c4_witness :
    (rC5.run wC5).2.artifact_checked =
      some (amendedArtifactPath
        (Path.join
          (CargoDirectories.new wC5.fs wC5.metadata wC5.cargo_manifest_dir).1.target_directory
          "wasm-examples-target")
        rC5.profile rC5.«example».isSome "demo") :=
  c4_artifact_path.2 rC5 wC5 "demo" (by decide) rfl

/-- C5 (confirmed): when the build succeeded but the computed artifact path
does not exist, `run()` fails with the artifact-missing error message and
performs no post-processing: wasm-bindgen is not invoked and no page is
written.  (Note the source builds the message from a plain string literal,
not `format!`, so the `\x7bwasm_source:?\x7d` placeholder appears
verbatim.) -/
theorem c5_missing_artifact (r : RunWasm) (w : World) (name : String)
    (hname : r.binaryName = some name)
    (hcargo : w.cargo_build_success = true)
    (hmissing : w.fs_after_build.pathExists
        (wasmSourcePath
          (Path.join
            (CargoDirectories.new w.fs w.metadata w.cargo_manifest_dir).1.target_directory
            "wasm-examples-target")
          r.profile r.«example».isSome name) = false) :
    (r.run w).1 = .error artifactMissingMsg ∧
    (r.run w).2.bindgen_input = none ∧
    (r.run w).2.page_path = none ∧
    (r.run w).2.page_contents = none := by
  unfold RunWasm.run
  rw [hname]
  simp only [hcargo]
  rw [if_neg (show ¬(true = false) by decide), if_pos hmissing]
  exact ⟨rfl, rfl, rfl, rfl⟩

/-- C5 witness: a package selector with a successful build and an empty
post-build filesystem yields the artifact-missing error with no
post-processing. -/
theorem c5_witness :
    (rC5.run wC5).1 = .error artifactMissingMsg ∧
    (rC5.run wC5).2.bindgen_input = none ∧
    (rC5.run wC5).2.page_path = none ∧
    (rC5.run wC5).2.page_contents = none :=
  c5_missing_artifact rC5 wC5 "demo" (by decide) rfl (by decide)

/-- C7 (confirmed): css containing `</style>` is rejected by `with_css`
(the source panics there), and in the CLI pipeline this happens before
`run()` is reached, so no external step runs and no file is written. -/
theorem c7_css_rejected (css : String) (h : strContains css "</style>" = true) :
    (∀ r : RunWasm, r.with_css css = none) ∧
    (∀ (argv : List String) (w : World), run_wasm_cli_with_css css argv w = ({} : Trace)) := by
  constructor
  · intro r
    simp [RunWasm.with_css, h]
  · intro argv w
    unfold run_wasm_cli_with_css
    cases hfe : Args.from_env argv with
    | err m => rfl
    | panicked => rfl
    | ok args =>
      by_cases hh : args.help
      · simp [hh]
      · simp [hh, RunWasm.with_css, h]

/-- C7 witness: the literal css `</style>` is rejected and the CLI
pipeline performs no step. -/
theorem c7_witness :
    RunWasm.with_css RunWasm.new "</style>" = none ∧
    run_wasm_cli_with_css "</style>" ["--package", "demo"] wCli = ({} : Trace) :=
  ⟨(c7_css_rejected "</style>" (by decide)).1 RunWasm.new,
   (c7_css_rejected "</style>" (by decide)).2 ["--package", "demo"] wCli⟩

/-- C9 (confirmed, over the spec-modelled template): rendering the default
template with name `demo` and empty css yields a page containing `demo`
and neither of the markers `\x7b\x7bname\x7d\x7d` and `\x7b\x7bcss\x7d\x7d`. -/
theorem c9_template_roundtrip :
    strContains (strReplace (strReplace index_template nameMarker "demo") cssMarker "")
      "demo" = true ∧
    strContains (strReplace (strReplace index_template nameMarker "demo") cssMarker "")
      nameMarker = false ∧
    strContains (strReplace (strReplace index_template nameMarker "demo") cssMarker "")
      cssMarker = false := by
  decide

/-- C10 (confirmed): with no selector set, `run()` returns the
need-a-selector error with an empty trace (no external process was
invoked); when several selectors are set the name is chosen with
precedence example over bin over package; and that name is the one used
for the artifact lookup and the destination bundle paths. -/
theorem c10_selector_precedence :
    (∀ (r : RunWasm) (w : World),
        r.«example» = none → r.bin = none → r.package = none →
        r.run w = (.error needTargetMsg, ({} : Trace))) ∧
    (∀ (r : RunWasm) (e : String), r.«example» = some e → r.binaryName = some e) ∧
    (∀ (r : RunWasm) (b : String),
        r.«example» = none → r.bin = some b → r.binaryName = some b) ∧
    (∀ (r : RunWasm) (pk : String),
        r.«example» = none → r.bin = none → r.package = some pk →
        r.binaryName = some pk) ∧
    (∀ (r : RunWasm) (w : World) (name : String),
        r.binaryName = some name → w.cargo_build_success = true →
        (r.run w).2.artifact_checked =
          some (wasmSourcePath
            (Path.join
              (CargoDirectories.new w.fs w.metadata w.cargo_manifest_dir).1.target_directory
              "wasm-examples-target")
            r.profile r.«example».isSome name) ∧
        ∀ pp ∈ (r.run w).2.page_path,
          pp = Path.join
            (Path.join
              (Path.join
                (CargoDirectories.new w.fs w.metadata w.cargo_manifest_dir).1.target_directory
                "wasm-examples")
              name)
            "index.html") := by
  refine ⟨?_, ?_, ?_, ?_, ?_⟩
  · intro r w he hb hp
    have hnone0 : r.binaryName = none := by
      simp [RunWasm.binaryName, he, hb, hp, Option.or]
    unfold RunWasm.run
    rw [hnone0]
  · intro r e he
    simp [RunWasm.binaryName, he, Option.or]
  · intro r b he hb
    simp [RunWasm.binaryName, he, hb, Option.or]
  · intro r pk he hb hp
    simp [RunWasm.binaryName, he, hb, hp, Option.or]
  · intro r w name hname hcargo
    unfold RunWasm.run
    rw [hname]
    simp only [hcargo]
    rw [if_neg (show ¬(true = false) by decide)]
    split
    next => exact ⟨rfl, fun pp hpp => nomatch hpp⟩
    next => exact ⟨rfl, fun pp hpp => by cases hpp; rfl⟩

/-- C10 witness: precedence and the error case at concrete fixtures. -/
theorem c10_witness :
    RunWasm.new.run wC10 = (.error needTargetMsg, ({} : Trace)) ∧
    rC10.binaryName = some "ex" ∧
    rC10b.binaryName = some "bi" ∧
    rC10c.binaryName = some "pk" ∧
    (rC10.run wC10).2.artifact_checked =
      some (wasmSourcePath
        (Path.join
          (CargoDirectories.new wC10.fs wC10.metadata wC10.cargo_manifest_dir).1.target_directory
          "wasm-examples-target")
        rC10.profile rC10.«example».isSome "ex") :=
  ⟨c10_selector_precedence.1 RunWasm.new wC10 rfl rfl rfl,
   c10_selector_precedence.2.1 rC10 "ex" rfl,
   c10_selector_precedence.2.2.1 rC10b "bi" rfl rfl,
   c10_selector_precedence.2.2.2.1 rC10c "pk" rfl rfl rfl,
   (c10_selector_precedence.2.2.2.2 rC10 wC10 "ex" rfl rfl).1⟩

/-! ### Lemmas about the pico_args model, for claim C6 -/

/-- A non-special argument differs from every handled key. -/
theorem not_special_ne (a k : String) (hk : k ∈ handledKeys)
    (ha : isSpecialArg a = false) : a ≠ k := by
  intro h
  subst h
  unfold isSpecialArg at ha
  rw [Bool.or_eq_false_iff] at ha
  have hc : handledKeys.contains a = true := List.elem_eq_true_of_mem hk
  rw [hc] at ha
  exact absurd ha.1 (by simp)

/-- A non-special argument is not a `key=value` form of a handled key. -/
theorem not_special_no_eqform (a k : String) (hk : k ∈ handledKeys)
    (ha : isSpecialArg a = false) : strIsPrefixOf (k ++ "=") a = false := by
  unfold isSpecialArg at ha
  rw [Bool.or_eq_false_iff] at ha
  have h2 := List.any_eq_false.mp ha.2 k hk
  simpa using h2

/-- `removeFirst` misses a key that occurs nowhere. -/
theorem removeFirst_eq_none (k : String) (l : List String)
    (h : ∀ a ∈ l, a ≠ k) : removeFirst k l = none := by
  induction l with
  | nil => rfl
  | cons a rest ih =>
    unfold removeFirst
    rw [if_neg (h a (List.mem_cons_self a rest))]
    rw [ih (fun x hx => h x (List.mem_cons_of_mem a hx))]
    rfl

/-- `contains` leaves the arguments unchanged when the key is absent. -/
theorem picoContains_of_absent (k : String) (l : List String)
    (h : ∀ a ∈ l, a ≠ k) : picoContains k l = (false, l) := by
  unfold picoContains
  rw [removeFirst_eq_none k l h]

/-- The two-argument lookup misses an absent key. -/
theorem findKeyValue_absent (k : String) (l : List String)
    (h : ∀ a ∈ l, a ≠ k) : findKeyValue k l = .absent := by
  induction l with
  | nil => rfl
  | cons a rest ih =>
    unfold findKeyValue
    rw [if_neg (h a (List.mem_cons_self a rest))]
    rw [ih (fun x hx => h x (List.mem_cons_of_mem a hx))]

/-- The `key=value` lookup misses when no argument has that shape. -/
theorem findKeyEq_absent (k : String) (l : List String)
    (h : ∀ a ∈ l, strIsPrefixOf (k ++ "=") a = false) : findKeyEq k l = .absent := by
  induction l with
  | nil => rfl
  | cons a rest ih =>
    unfold findKeyEq
    rw [if_neg (by simp [h a (List.mem_cons_self a rest)])]
    rw [ih (fun x hx => h x (List.mem_cons_of_mem a hx))]

/-- A fully absent key yields `Ok(None)` and unchanged arguments. -/
theorem picoOptValue_absent (k : String) (l : List String)
    (h1 : ∀ a ∈ l, a ≠ k)
    (h2 : ∀ a ∈ l, strIsPrefixOf (k ++ "=") a = false) :
    picoOptValue k l = some (none, l) := by
  unfold picoOptValue
  rw [findKeyValue_absent k l h1, findKeyEq_absent k l h2]

/-- The two-argument lookup finds `k v` after a prefix not containing `k`. -/
theorem findKeyValue_found (k v : String) (pre post : List String)
    (h : ∀ a ∈ pre, a ≠ k) :
    findKeyValue k (pre ++ k :: v :: post) = .found v (pre ++ post) := by
  induction pre with
  | nil =>
    rw [List.nil_append]
    unfold findKeyValue
    rw [if_pos rfl]
    rfl
  | cons a rest ih =>
    rw [List.cons_append]
    unfold findKeyValue
    rw [if_neg (h a (List.mem_cons_self a rest))]
    rw [ih (fun x hx => h x (List.mem_cons_of_mem a hx))]
    rw [List.cons_append]

/-- An exactly-present key with a following value is found with that value. -/
theorem picoOptValue_found (k v : String) (pre post : List String)
    (h : ∀ a ∈ pre, a ≠ k) :
    picoOptValue k (pre ++ k :: v :: post) = some (some v, pre ++ post) := by
  unfold picoOptValue
  rw [findKeyValue_found k v pre post h]

/-- No element of `pre ++ bkey :: v :: post` equals a handled key distinct
from `bkey`, when `pre`, `post` and `v` are non-special. -/
theorem parts_ne (k bkey v : String) (pre post : List String)
    (hpre : ∀ a ∈ pre, isSpecialArg a = false)
    (hpost : ∀ a ∈ post, isSpecialArg a = false)
    (hv : isSpecialArg v = false)
    (hk : k ∈ handledKeys)
    (hbk : bkey ≠ k) :
    ∀ a ∈ pre ++ bkey :: v :: post, a ≠ k := by
  intro a ha
  rcases List.mem_append.mp ha with h | h
  · exact not_special_ne a k hk (hpre a h)
  · rcases List.mem_cons.mp h with rfl | h2
    · exact hbk
    · rcases List.mem_cons.mp h2 with rfl | h3
      · exact not_special_ne a k hk hv
      · exact not_special_ne a k hk (hpost a h3)

/-- No element of `pre ++ bkey :: v :: post` is a `k=value` form of a
handled key, when `pre`, `post` and `v` are non-special and `bkey` is not
of that shape. -/
theorem parts_no_eqform (k bkey v : String) (pre post : List String)
    (hpre : ∀ a ∈ pre, isSpecialArg a = false)
    (hpost : ∀ a ∈ post, isSpecialArg a = false)
    (hv : isSpecialArg v = false)
    (hk : k ∈ handledKeys)
    (hbk : strIsPrefixOf (k ++ "=") bkey = false) :
    ∀ a ∈ pre ++ bkey :: v :: post, strIsPrefixOf (k ++ "=") a = false := by
  intro a ha
  rcases List.mem_append.mp ha with h | h
  · exact not_special_no_eqform a k hk (hpre a h)
  · rcases List.mem_cons.mp h with rfl | h2
    · exact hbk
    · rcases List.mem_cons.mp h2 with rfl | h3
      · exact not_special_no_eqform a k hk hv
      · exact not_special_no_eqform a k hk (hpost a h3)

/-- C6 (corrected): two refutations of the claim as stated.  First, a
`--target` given *without* a value makes `from_env` panic (the pico_args
error is `.unwrap()`ed) instead of returning the configuration error.
Second, a `--target` positioned where an earlier value-taking option
consumes it as its *value* (here `--host --target x`) is swallowed: parsing
succeeds even though the argument list contains `--target`. -/
theorem c6_counterexample :
    ("--target" ∈ (["--target"] : List String) ∧
      Args.from_env ["--target"] = .panicked) ∧
    ("--target" ∈ (["--host", "--target", "x"] : List String) ∧
      Args.from_env ["--host", "--target", "x"] = .ok argsHostTarget) := by
  decide

/-- C6 (amended): for every process argument list in which `--target` or
`--target-dir` occurs followed by a value argument, where neither the value
nor any other argument is one of the handled option keys or a `key=value`
form of one (so the flag cannot be consumed as an earlier option's value,
and no earlier lookup can panic), argument parsing fails with the
configuration error naming the unsupported option, and the CLI entry point
then performs no external step at all. -/
theorem c6_banned_flag_rejected (bkey v : String) (pre post : List String)
    (hb : bkey = "--target" ∨ bkey = "--target-dir")
    (hpre : ∀ a ∈ pre, isSpecialArg a = false)
    (hpost : ∀ a ∈ post, isSpecialArg a = false)
    (hv : isSpecialArg v = false) :
    Args.from_env (pre ++ bkey :: v :: post) = .err (bannedMsg bkey) ∧
    ∀ (css : String) (w : World),
      run_wasm_cli_with_css css (pre ++ bkey :: v :: post) w = ({} : Trace) := by
  have hne : ∀ k, k ∈ handledKeys → bkey ≠ k →
      ∀ a ∈ pre ++ bkey :: v :: post, a ≠ k :=
    fun k hk hbk => parts_ne k bkey v pre post hpre hpost hv hk hbk
  have heq : ∀ k, k ∈ handledKeys → strIsPrefixOf (k ++ "=") bkey = false →
      ∀ a ∈ pre ++ bkey :: v :: post, strIsPrefixOf (k ++ "=") a = false :=
    fun k hk hbk => parts_no_eqform k bkey v pre post hpre hpost hv hk hbk
  have herr : Args.from_env (pre ++ bkey :: v :: post) = .err (bannedMsg bkey) := by
    rcases hb with rfl | rfl
    · have d1 := picoContains_of_absent "--release" _ (hne _ (by decide) (by decide))
      have d2 := picoContains_of_absent "-r" _ (hne _ (by decide) (by decide))
      have d3 := picoOptValue_absent "--profile" _
        (hne _ (by decide) (by decide)) (heq _ (by decide) (by decide))
      have d4 := picoContains_of_absent "--build-only" _ (hne _ (by decide) (by decide))
      have d5 := picoContains_of_absent "--help" _ (hne _ (by decide) (by decide))
      have d6 := picoContains_of_absent "-h" _ (hne _ (by decide) (by decide))
      have d7 := picoOptValue_absent "--host" _
        (hne _ (by decide) (by decide)) (heq _ (by decide) (by decide))
      have d8 := picoOptValue_absent "--port" _
        (hne _ (by decide) (by decide)) (heq _ (by decide) (by decide))
      have d9 := picoOptValue_absent "--package" _
        (hne _ (by decide) (by decide)) (heq _ (by decide) (by decide))
      have d10 := picoOptValue_absent "-p" _
        (hne _ (by decide) (by decide)) (heq _ (by decide) (by decide))
      have d11 := picoOptValue_absent "--example" _
        (hne _ (by decide) (by decide)) (heq _ (by decide) (by decide))
      have d12 := picoOptValue_absent "--bin" _
        (hne _ (by decide) (by decide)) (heq _ (by decide) (by decide))
      have d13 := picoOptValue_found "--target" v pre post
        (fun a ha => not_special_ne a _ (by decide) (hpre a ha))
      simp [Args.from_env, d1, d2, d3, d4, d5, d6, d7, d8, d9, d10, d11, d12, d13]
    · have d1 := picoContains_of_absent "--release" _ (hne _ (by decide) (by decide))
      have d2 := picoContains_of_absent "-r" _ (hne _ (by decide) (by decide))
      have d3 := picoOptValue_absent "--profile" _
        (hne _ (by decide) (by decide)) (heq _ (by decide) (by decide))
      have d4 := picoContains_of_absent "--build-only" _ (hne _ (by decide) (by decide))
      have d5 := picoContains_of_absent "--help" _ (hne _ (by decide) (by decide))
      have d6 := picoContains_of_absent "-h" _ (hne _ (by decide) (by decide))
      have d7 := picoOptValue_absent "--host" _
        (hne _ (by decide) (by decide)) (heq _ (by decide) (by decide))
      have d8 := picoOptValue_absent "--port" _
        (hne _ (by decide) (by decide)) (heq _ (by decide) (by decide))
      have d9 := picoOptValue_absent "--package" _
        (hne _ (by decide) (by decide)) (heq _ (by decide) (by decide))
      have d10 := picoOptValue_absent "-p" _
        (hne _ (by decide) (by decide)) (heq _ (by decide) (by decide))
      have d11 := picoOptValue_absent "--example" _
        (hne _ (by decide) (by decide)) (heq _ (by decide) (by decide))
      have d12 := picoOptValue_absent "--bin" _
        (hne _ (by decide) (by decide)) (heq _ (by decide) (by decide))
      have d13 := picoOptValue_absent "--target" _
        (hne _ (by decide) (by decide)) (heq _ (by decide) (by decide))
      have d14 := picoOptValue_found "--target-dir" v pre post
        (fun a ha => not_special_ne a _ (by decide) (hpre a ha))
      simp [Args.from_env, d1, d2, d3, d4, d5, d6, d7, d8, d9, d10, d11, d12, d13, d14]
  exact ⟨herr, fun css w => run_wasm_cli_of_err css _ w _ herr⟩

/-- C6 witness: `--target x` alone is rejected with the configuration
error and nothing external runs. -/
theorem c6_witness :
    Args.from_env ["--target", "x"] = .err (bannedMsg "--target") ∧
    run_wasm_cli_with_css "" ["--target", "x"] wCli = ({} : Trace) :=
  ⟨(c6_banned_flag_rejected "--target" "x" [] [] (Or.inl rfl)
      (by decide) (by decide) (by decide)).1,
   (c6_banned_flag_rejected "--target" "x" [] [] (Or.inl rfl)
      (by decide) (by decide) (by decide)).2 "" wCli⟩

end CargoRunWasm
